import Mathlib

/-!
Verification of the AgenticMojo front-end transport layer.

This file shallowly embeds the client-side logic of the repository:
the session bootstrap calls (frontend/src/lib/api.ts), the SSE run-stream
helper (frontend/src/lib/stream.ts), the WebSocket session helper
(frontend/src/lib/ws.ts), the run event log accumulation (pages/P1Run.tsx),
the chat log of the interactive page (pages/P2Interactive.tsx) and the
metrics rendering of components/LogStream.tsx.

Host functions the code calls (JSON.parse, fetch, EventSource, WebSocket)
are not code of the repository; they are embedded as parameters
(the parse function, the HTTP response) or as their standard-specified
state semantics (EventSource.close, WebSocket.send / WebSocket.close,
whose behaviour per ready state is fixed by the WHATWG HTML standard).
-/

namespace AgenticMojo

/-- JSON values as produced by the host JSON.parse. All numeric literals
appearing in the frames evaluated in this development are integers, so
Int models the number case faithfully here. -/
inductive Json where
  | null
  | bool (b : Bool)
  | num (n : Int)
  | str (s : String)
  | arr (elems : List Json)
  | obj (fields : List (String × Json))

/-- JavaScript property access e[k] on a parsed value: the field's value when
present on an object, absent (undefined) otherwise. JSON.parse never yields
duplicate keys (later duplicates overwrite), so first-match lookup is exact. -/
def Json.getField : Json → String → Option Json
  | Json.obj fields, k => (fields.find? (fun p => p.1 == k)).map Prod.snd
  | _, _ => none

/-- The JavaScript nullish-coalescing operator: v ?? d yields d when v is
absent (undefined) or null, and v itself otherwise. -/
def nullishOr (v : Option Json) (d : Json) : Json :=
  match v with
  | some Json.null => d
  | some x => x
  | none => d

/-- RunState from frontend/src/lib/types.ts. -/
inductive RunState where
  | queued
  | running
  | done
  | error
deriving DecidableEq

/-- The tool literal union of the step case of RunEvent in
frontend/src/lib/types.ts: "bash" | "edit" | "sequential_thinking" |
"test" | "commit". -/
inductive Tool where
  | bash
  | edit
  | sequential_thinking
  | test
  | commit
deriving DecidableEq

/-- The string literal each Tool constructor stands for in types.ts. -/
def Tool.name : Tool → String
  | Tool.bash => "bash"
  | Tool.edit => "edit"
  | Tool.sequential_thinking => "sequential_thinking"
  | Tool.test => "test"
  | Tool.commit => "commit"

/-- FileDiff from frontend/src/lib/types.ts. -/
structure FileDiff where
  path : String
  patch : String
deriving DecidableEq

/-- RunEvent from frontend/src/lib/types.ts: a tagged union with exactly one
case active; optional fields become Option. -/
inductive RunEvent where
  | status (runId : String) (state : RunState) (message : Option String)
  | step (index : Int) (tool : Tool) (summary : String)
  | output (tool : String) (text : String)
  | diff (files : List FileDiff)
  | metrics (coverage : Option Int) (refactor : Option Int) (combo : Option Int)
  | error (message : String)

/-- The five tool strings admitted by the code's step case (types.ts). -/
def codeToolNames : List String :=
  ["bash", "edit", "sequential_thinking", "test", "commit"]

/-- The five tool names the specification's data model asserts for the step
case: shell-exec, file-edit, structured-reasoning, test-exec, commit. -/
def specToolNames : List String :=
  ["shell-exec", "file-edit", "structured-reasoning", "test-exec", "commit"]

/-- An HTTP response as seen by the api.ts functions: its status code and its
body text (r.text() returns the body; r.json() parses the same body). -/
structure HttpResponse where
  status : Nat
  bodyText : String
deriving DecidableEq

/-- Response.ok of the Fetch standard: status in the range 200..299. -/
def HttpResponse.ok (r : HttpResponse) : Bool :=
  200 ≤ r.status && r.status ≤ 299

/-- The two ways an api.ts call can reject: the explicit
throw new Error(await r.text()) on a non-ok response, carrying exactly the
body text as its message, or the rejection of r.json() on a body that is not
valid JSON. -/
inductive FetchError where
  | httpError (message : String)
  | jsonSyntaxError
deriving DecidableEq

/-- p1StartRun from frontend/src/lib/api.ts, response handling: if the fetch
response r is not ok, throw an Error whose message is the body text;
otherwise return the body parsed as JSON (r.json() rejects when the body does
not parse). The request construction (POST /api/p1/run with the JSON payload)
is the host fetch exchange whose outcome is the parameter r. -/
def p1StartRun (parse : String → Option Json) (r : HttpResponse) :
    Except FetchError Json :=
  if !r.ok then Except.error (FetchError.httpError r.bodyText)
  else
    match parse r.bodyText with
    | some j => Except.ok j
    | none => Except.error FetchError.jsonSyntaxError

/-- p2CreateSession from frontend/src/lib/api.ts, response handling; the
same contract as p1StartRun (POST /api/p2/session). -/
def p2CreateSession (parse : String → Option Json) (r : HttpResponse) :
    Except FetchError Json :=
  if !r.ok then Except.error (FetchError.httpError r.bodyText)
  else
    match parse r.bodyText with
    | some j => Except.ok j
    | none => Except.error FetchError.jsonSyntaxError

/-- uploadZip from frontend/src/lib/api.ts, response handling; the same
contract (POST /api/upload with a multipart form). -/
def uploadZip (parse : String → Option Json) (r : HttpResponse) :
    Except FetchError Json :=
  if !r.ok then Except.error (FetchError.httpError r.bodyText)
  else
    match parse r.bodyText with
    | some j => Except.ok j
    | none => Except.error FetchError.jsonSyntaxError

/-- EventSource readyState per the HTML standard: CONNECTING, OPEN, CLOSED. -/
inductive ESReady where
  | connecting
  | opened
  | closed
deriving DecidableEq

/-- The state owned by one P1 run subscription: the EventSource ready state
and the accumulated event log (the events state of P1Run.tsx). -/
structure ESState where
  ready : ESReady
  log : List Json

/-- The closer returned by p1OpenStream (stream.ts): () => es.close().
EventSource.close() sets readyState to CLOSED and has no failure mode in the
standard, in any state, including when already closed. -/
def esClose (s : ESState) : ESState :=
  ESState.mk ESReady.closed s.log

/-- The onmessage handler P1Run.tsx installs through p1OpenStream:
try { setEvents((e) => [...e, JSON.parse(ev.data)]) } catch {}.
A frame whose data parses is appended to the log; a frame that fails to
parse leaves the log unchanged, the exception being swallowed by the empty
catch block. -/
def p1HandleFrame (parse : String → Option Json) (log : List Json)
    (data : String) : List Json :=
  match parse data with
  | some v => log ++ [v]
  | none => log

/-- Auxiliary: the run event log after delivering a list of frames on top of
an existing log, one p1HandleFrame step per frame, in delivery order. -/
def p1EventLogFrom (parse : String → Option Json) (log : List Json) :
    List String → List Json
  | [] => log
  | d :: ds => p1EventLogFrom parse (p1HandleFrame parse log d) ds

/-- The run event log accumulated by P1Run.tsx from the empty initial state
(setEvents([]) on start) after a sequence of inbound frames. -/
def p1EventLog (parse : String → Option Json) (frames : List String) :
    List Json :=
  p1EventLogFrom parse [] frames

/-- The inputs the EventSource delivers to the helper in stream.ts: a message
frame (dispatched to onmessage) or a transport-level error (dispatched to
onerror, which the helper answers with es.close()). -/
inductive StreamInput where
  | frame (data : String)
  | transportError
deriving DecidableEq

/-- One step of the P1 stream subscription built by p1OpenStream (stream.ts)
with the P1Run.tsx handler: a closed EventSource dispatches nothing; a
message frame runs the appending handler; a transport error runs
onerror = () => es.close(). The helper contains no transition out of the
closed state: no automatic reconnect exists. -/
def streamStep (parse : String → Option Json) (s : ESState) :
    StreamInput → ESState
  | StreamInput.frame d =>
      if s.ready = ESReady.closed then s
      else ESState.mk s.ready (p1HandleFrame parse s.log d)
  | StreamInput.transportError =>
      if s.ready = ESReady.closed then s
      else esClose s

/-- The subscription state after a sequence of stream inputs. -/
def streamRun (parse : String → Option Json) : ESState → List StreamInput → ESState
  | s, [] => s
  | s, i :: is => streamRun parse (streamStep parse s i) is

/-- WebSocket readyState per the HTML standard: CONNECTING, OPEN, CLOSING,
CLOSED. -/
inductive WSReady where
  | connecting
  | opened
  | closing
  | closed
deriving DecidableEq

/-- WebSocket.send semantics per the WHATWG HTML standard, as invoked by the
send closure of p2OpenWS (ws.ts): in the CONNECTING state it throws an
InvalidStateError; in the OPEN state it transmits the frame (appended to the
transcript of sent frames); in the CLOSING or CLOSED states it silently
discards the data. The serialized argument JSON.stringify(m) is modelled by
the Json value m itself. -/
def wsSend (st : WSReady) (sent : List Json) (frame : Json) :
    Except String (List Json) :=
  match st with
  | WSReady.connecting => Except.error "InvalidStateError"
  | WSReady.opened => Except.ok (sent ++ [frame])
  | WSReady.closing => Except.ok sent
  | WSReady.closed => Except.ok sent

/-- The send closure returned by p2OpenWS (ws.ts):
send: (m) => ws.send(JSON.stringify(m)). -/
def p2Send (st : WSReady) (sent : List Json) (m : Json) :
    Except String (List Json) :=
  wsSend st sent m

/-- The ready-state effect of WebSocket.close() per the standard: a CLOSED
socket is left as is; any other state moves to CLOSING (the closing
handshake). A second close call in CLOSING or CLOSED does nothing. -/
def wsCloseState : WSReady → WSReady
  | WSReady.closed => WSReady.closed
  | _ => WSReady.closing

/-- WebSocket.close(code?) per the standard: the only failure mode is an
InvalidAccessError for a code that is neither 1000 nor in 3000..4999; a call
without a code never throws, in any state. -/
def wsCloseOp (code : Option Nat) (st : WSReady) : Except String WSReady :=
  match code with
  | some c =>
      if c = 1000 ∨ (3000 ≤ c ∧ c ≤ 4999) then Except.ok (wsCloseState st)
      else Except.error "InvalidAccessError"
  | none => Except.ok (wsCloseState st)

/-- The close closure returned by p2OpenWS (ws.ts): close: () => ws.close(),
a close call carrying no code. -/
def p2Close (st : WSReady) : Except String WSReady :=
  wsCloseOp none st

/-- Outcome of running the onmessage handler p2OpenWS installs (ws.ts):
the chat log afterwards and the exception, if any, that escaped the handler.
The handler is (ev) => onMsg(JSON.parse(ev.data)) with no try/catch, where
onMsg is (msg) => setChat((c) => [...c, msg]) from P2Interactive.tsx. -/
structure P2HandlerResult where
  chat : List Json
  thrown : Option String

/-- The onmessage handler of the interactive channel: a frame whose data
parses is appended to the chat log; on a frame that does not parse,
JSON.parse throws a SyntaxError which nothing in the handler catches, so it
escapes, and onMsg is never invoked, leaving the chat log unchanged. -/
def p2OnMessage (parse : String → Option Json) (chat : List Json)
    (data : String) : P2HandlerResult :=
  match parse data with
  | some m => P2HandlerResult.mk (chat ++ [m]) none
  | none => P2HandlerResult.mk chat (some "SyntaxError")

/-- The outbound answer message built by sendUser and the question buttons in
P2Interactive.tsx: { type: "answer", text }. -/
def answerMsg (text : String) : Json :=
  Json.obj [("type", Json.str "answer"), ("text", Json.str text)]

/-- The outbound approve message built by onApprove in P2Interactive.tsx:
{ type: "approve", actionId }. -/
def approveMsg (actionId : String) : Json :=
  Json.obj [("type", Json.str "approve"), ("actionId", Json.str actionId)]

/-- The outbound reject message built by onReject in P2Interactive.tsx:
{ type: "reject", actionId, reason: "Not now" }. -/
def rejectMsg (actionId : String) : Json :=
  Json.obj [("type", Json.str "reject"), ("actionId", Json.str actionId),
    ("reason", Json.str "Not now")]

/-- The optional-chaining call wsRef.current?.send(m) used by every sender in
P2Interactive.tsx: a no-op when no channel object exists (wsRef.current is
null); otherwise the channel's send, with the WebSocket's state semantics. -/
def sendViaRef (ref : Option WSReady) (sent : List Json) (m : Json) :
    Except String (List Json) :=
  match ref with
  | none => Except.ok sent
  | some st => p2Send st sent m

/-- onApprove from P2Interactive.tsx:
wsRef.current?.send({ type: "approve", actionId }). -/
def onApprove (ref : Option WSReady) (sent : List Json) (actionId : String) :
    Except String (List Json) :=
  sendViaRef ref sent (approveMsg actionId)

/-- onReject from P2Interactive.tsx:
wsRef.current?.send({ type: "reject", actionId, reason: "Not now" }). -/
def onReject (ref : Option WSReady) (sent : List Json) (actionId : String) :
    Except String (List Json) :=
  sendViaRef ref sent (rejectMsg actionId)

/-- The chat line sendUser appends for the user before transmitting:
{ role: "user", text }. -/
def userChatMsg (text : String) : Json :=
  Json.obj [("role", Json.str "user"), ("text", Json.str text)]

/-- sendUser from P2Interactive.tsx: trims the input, does nothing on an
empty result, otherwise appends the user chat line and sends the answer
message through the channel reference. Yields the chat log afterwards and
the send outcome. -/
def sendUser (ref : Option WSReady) (chat : List Json) (sent : List Json)
    (input : String) : List Json × Except String (List Json) :=
  if input.trim = "" then (chat, Except.ok sent)
  else (chat ++ [userChatMsg input.trim],
    sendViaRef ref sent (answerMsg input.trim))

/-- The assistant greeting onStart places into the chat
(P2Interactive.tsx): { role: "assistant", text: `Session ... ready. ...` }. -/
def p2Greeting (sessionId : String) : Json :=
  Json.obj [("role", Json.str "assistant"),
    ("text", Json.str ("Session " ++ sessionId ++ " ready. Tell me what to scaffold."))]

/-- The onMsg append of P2Interactive.tsx: setChat((c) => [...c, msg]). -/
def p2AppendChat (chat : List Json) (m : Json) : List Json :=
  chat ++ [m]

/-- The final setChat of onStart (P2Interactive.tsx): the chat cell is
replaced with the single greeting, its previous contents discarded. -/
def p2ResetChat (_chat : List Json) (sessionId : String) : List Json :=
  [p2Greeting sessionId]

/-- The chat log at the end of onStart (P2Interactive.tsx): starting from the
chat before the call, the channel is opened and every message the channel
delivers before the reset is appended by the installed handler; then the
trailing setChat replaces the whole log with the greeting. -/
def p2OnStartChat (chat0 : List Json) (delivered : List Json)
    (sessionId : String) : List Json :=
  p2ResetChat (delivered.foldl p2AppendChat chat0) sessionId

/-- The coverage cell of the metrics line in LogStream.tsx:
e.coverage ?? "-". -/
def metricsCoverageShown (e : Json) : Json :=
  nullishOr (e.getField "coverage") (Json.str "-")

/-- The refactor cell of the metrics line in LogStream.tsx:
e.refactor ?? "-". -/
def metricsRefactorShown (e : Json) : Json :=
  nullishOr (e.getField "refactor") (Json.str "-")

/-- The combo cell of the metrics line in LogStream.tsx: e.combo ?? 0. -/
def metricsComboShown (e : Json) : Json :=
  nullishOr (e.getField "combo") (Json.num 0)

/-- The step indices carried by the step-tagged events of a log, in log
order. -/
def stepIndexList (log : List Json) : List Int :=
  log.filterMap (fun e =>
    match e.getField "type", e.getField "index" with
    | some (Json.str "step"), some (Json.num i) => some i
    | _, _ => none)

/-- Strict monotonicity of the step indices of a log. -/
def stepIndicesMono (log : List Json) : Prop :=
  List.Chain' (fun a b => a < b) (stepIndexList log)

/-- A body text carrying a run identifier, and its parse. -/
def runIdBody : String := "\x7b\"run_id\":\"r1\"\x7d"

/-- The JSON value JSON.parse yields for runIdBody. -/
def runIdJson : Json := Json.obj [("run_id", Json.str "r1")]

/-- A metrics frame with no optional fields. -/
def metricsFrame : String := "\x7b\"type\":\"metrics\"\x7d"

/-- The JSON value JSON.parse yields for metricsFrame. -/
def emptyMetricsJson : Json := Json.obj [("type", Json.str "metrics")]

/-- A step frame with index 5. -/
def stepFrameA : String :=
  "\x7b\"type\":\"step\",\"index\":5,\"tool\":\"bash\",\"summary\":\"a\"\x7d"

/-- The JSON value JSON.parse yields for stepFrameA. -/
def stepJsonA : Json :=
  Json.obj [("type", Json.str "step"), ("index", Json.num 5),
    ("tool", Json.str "bash"), ("summary", Json.str "a")]

/-- A step frame with index 3, delivered after stepFrameA. -/
def stepFrameB : String :=
  "\x7b\"type\":\"step\",\"index\":3,\"tool\":\"bash\",\"summary\":\"b\"\x7d"

/-- The JSON value JSON.parse yields for stepFrameB. -/
def stepJsonB : Json :=
  Json.obj [("type", Json.str "step"), ("index", Json.num 3),
    ("tool", Json.str "bash"), ("summary", Json.str "b")]

/-- A concrete instantiation of the host JSON.parse, specified at the
finitely many frame strings the concrete instances below evaluate; it maps
each of those strings to exactly the value JSON.parse yields for it and
fails on everything else (in particular on the non-JSON text used as a
malformed frame). Every general theorem in this file is quantified over an
arbitrary parse function; this one only serves concrete evaluation. -/
def sampleParse (s : String) : Option Json :=
  if s = runIdBody then some runIdJson
  else if s = metricsFrame then some emptyMetricsJson
  else if s = stepFrameA then some stepJsonA
  else if s = stepFrameB then some stepJsonB
  else none

theorem p1EventLogFrom_eq (parse : String → Option Json) :
    ∀ (frames : List String) (log : List Json),
      p1EventLogFrom parse log frames = log ++ frames.filterMap parse := by
  intro frames
  induction frames with
  | nil => intro log; simp [p1EventLogFrom]
  | cons d ds ih =>
      intro log
      cases h : parse d with
      | some v =>
          simp [p1EventLogFrom, p1HandleFrame, h, ih, List.filterMap_cons]
      | none =>
          simp [p1EventLogFrom, p1HandleFrame, h, ih, List.filterMap_cons]

/-- C1: for every sequence of inbound frames delivered to the run-session
event log, the resulting log equals the ordered sequence of successfully
parsed frame values, appended in delivery order, with malformed frames
omitted without error (the catch block swallows the parse failure), so the
log is never longer than the number of frames delivered. -/
theorem p1_event_log_filters_malformed (parse : String → Option Json)
    (frames : List String) :
    p1EventLog parse frames = frames.filterMap parse
    ∧ (p1EventLog parse frames).length ≤ frames.length := by
  have h : p1EventLog parse frames = frames.filterMap parse := by
    simpa [p1EventLog] using p1EventLogFrom_eq parse frames []
  refine ⟨h, ?_⟩
  rw [h]
  exact List.length_filterMap_le parse frames

/-- C2: every bootstrap call (p1StartRun, p2CreateSession, uploadZip) throws,
on a non-2xx response, an error whose message is exactly the response body
text, and on a successful response returns the parsed identifier object
without throwing. -/
theorem bootstrap_response_contract (parse : String → Option Json)
    (r : HttpResponse) :
    (r.ok = false →
      p1StartRun parse r = Except.error (FetchError.httpError r.bodyText)
      ∧ p2CreateSession parse r = Except.error (FetchError.httpError r.bodyText)
      ∧ uploadZip parse r = Except.error (FetchError.httpError r.bodyText))
    ∧ (∀ j : Json, r.ok = true → parse r.bodyText = some j →
      p1StartRun parse r = Except.ok j
      ∧ p2CreateSession parse r = Except.ok j
      ∧ uploadZip parse r = Except.ok j) := by
  constructor
  · intro hok
    simp [p1StartRun, p2CreateSession, uploadZip, hok]
  · intro j hok hp
    simp [p1StartRun, p2CreateSession, uploadZip, hok, hp]

/-- Concrete instance of the bootstrap contract: a 400 response with body
"bad input" throws with exactly that message; a 200 response carrying a
run identifier returns it. -/
theorem bootstrap_response_contract_witness :
    p1StartRun sampleParse (HttpResponse.mk 400 "bad input")
        = Except.error (FetchError.httpError "bad input")
    ∧ p1StartRun sampleParse (HttpResponse.mk 200 runIdBody)
        = Except.ok runIdJson := by
  constructor
  · exact ((bootstrap_response_contract sampleParse
      (HttpResponse.mk 400 "bad input")).1 rfl).1
  · exact ((bootstrap_response_contract sampleParse
      (HttpResponse.mk 200 runIdBody)).2 runIdJson rfl rfl).1

/-- C3 as stated is false: a malformed inbound frame on the interactive
channel is not dropped silently; the handler installed by p2OpenWS has no
try/catch, so the claim that the handler always ends with the log unchanged
and nothing thrown fails. -/
theorem p2_malformed_frame_not_silent :
    ¬ (∀ (parse : String → Option Json) (chat : List Json) (data : String),
        parse data = none →
          p2OnMessage parse chat data = P2HandlerResult.mk chat none) := by
  intro h
  have h2 := h sampleParse [] "this is not json" rfl
  have h3 : some "SyntaxError" = (none : Option String) :=
    congrArg P2HandlerResult.thrown h2
  exact Option.noConfusion h3

/-- C3 amended: a malformed inbound frame on the interactive channel leaves
the message log unchanged (onMsg is never invoked), but the JSON.parse
SyntaxError escapes the onmessage handler instead of being swallowed. -/
theorem p2_malformed_frame_drops_but_throws (parse : String → Option Json)
    (chat : List Json) (data : String) (h : parse data = none) :
    p2OnMessage parse chat data
        = P2HandlerResult.mk chat (some "SyntaxError") := by
  simp [p2OnMessage, h]

/-- Concrete instance of the amended C3 at a non-JSON frame. -/
theorem p2_malformed_frame_drops_but_throws_witness :
    sampleParse "this is not json" = none
    ∧ p2OnMessage sampleParse [] "this is not json"
        = P2HandlerResult.mk [] (some "SyntaxError") :=
  ⟨rfl, p2_malformed_frame_drops_but_throws sampleParse [] "this is not json" rfl⟩

/-- C4 as stated is false: a send on the channel helper in a pre-open state
is not always a no-op or handled rejection; in the connecting state the
underlying WebSocket.send throws an InvalidStateError that nothing in the
repository catches. -/
theorem p2_send_before_open_counterexample :
    ¬ (∀ (st : WSReady) (sent : List Json) (m : Json),
        st ≠ WSReady.opened →
          ∀ e : String, p2Send st sent m ≠ Except.error e) := by
  intro h
  exact h WSReady.connecting [] (approveMsg "42") (by decide)
    "InvalidStateError" rfl

/-- C4 amended: a send made before the channel object exists (null ref) is a
safe no-op through optional chaining, and a send in the closing or closed
state is silently discarded; but a send on a created channel still in the
connecting state throws an InvalidStateError which no caller catches. -/
theorem p2_send_gating_behaviour (sent : List Json) (m : Json) :
    sendViaRef none sent m = Except.ok sent
    ∧ p2Send WSReady.closing sent m = Except.ok sent
    ∧ p2Send WSReady.closed sent m = Except.ok sent
    ∧ p2Send WSReady.connecting sent m = Except.error "InvalidStateError" :=
  ⟨rfl, rfl, rfl, rfl⟩

/-- C5 as stated is false: the code's step tool union is
bash, edit, sequential_thinking, test, commit, so the tool name bash of a
step event is not in the set the claim names, and the client accepts step
events with out-of-order indices, as the concrete log built from a frame of
index 5 followed by one of index 3 shows. -/
theorem step_tool_set_counterexample :
    Tool.name Tool.bash ∉ specToolNames
    ∧ p1EventLog sampleParse [stepFrameA, stepFrameB] = [stepJsonA, stepJsonB]
    ∧ ¬ stepIndicesMono (p1EventLog sampleParse [stepFrameA, stepFrameB]) := by
  refine ⟨by decide, rfl, ?_⟩
  unfold stepIndicesMono
  have h : stepIndexList (p1EventLog sampleParse [stepFrameA, stepFrameB])
      = [(5 : Int), 3] := rfl
  rw [h]
  intro hc
  exact absurd (List.chain'_cons.mp hc).1 (by decide)

/-- C5 amended: every step-tagged RunEvent's tool is one of the code's five
literals bash, edit, sequential_thinking, test, commit, and the client does
not enforce monotonicity of step indices: the event log accepts out-of-order
step indices as delivered. -/
theorem step_tool_set_amended :
    (∀ t : Tool, Tool.name t ∈ codeToolNames)
    ∧ p1EventLog sampleParse [stepFrameA, stepFrameB] = [stepJsonA, stepJsonB]
    ∧ ¬ stepIndicesMono [stepJsonA, stepJsonB] := by
  refine ⟨?_, rfl, ?_⟩
  · intro t
    cases t <;> decide
  · unfold stepIndicesMono
    have h : stepIndexList [stepJsonA, stepJsonB] = [(5 : Int), 3] := rfl
    rw [h]
    intro hc
    exact absurd (List.chain'_cons.mp hc).1 (by decide)

theorem iterate_idem {α : Type} (f : α → α) (hf : ∀ x, f (f x) = f x)
    (n : Nat) (x : α) : f^[n + 1] x = f x := by
  induction n with
  | zero => simp
  | succ k ih => rw [Function.iterate_succ_apply', ih, hf]

/-- C6: closing a stream or channel is idempotent: the closer returned by
p1OpenStream and the close of p2OpenWS can be invoked any positive number of
times, in any state including already closed, reaching the same state as one
close, and the channel close (a close call without a code) never yields an
error. -/
theorem close_idempotent (s : ESState) (w : WSReady) (n : Nat) :
    esClose (esClose s) = esClose s
    ∧ esClose^[n + 1] s = esClose s
    ∧ wsCloseState (wsCloseState w) = wsCloseState w
    ∧ wsCloseState^[n + 1] w = wsCloseState w
    ∧ p2Close w = Except.ok (wsCloseState w) := by
  refine ⟨rfl, ?_, ?_, ?_, rfl⟩
  · exact iterate_idem esClose (fun x => rfl) n s
  · cases w <;> rfl
  · exact iterate_idem wsCloseState (fun x => by cases x <;> rfl) n w

/-- C7: for the inbound metrics frame with no fields, the rendering logic of
LogStream shows coverage and refactor as the absent placeholder and combo as
exactly 0; every cell is a defined value. -/
theorem metrics_defaults_on_empty_frame :
    sampleParse metricsFrame = some emptyMetricsJson
    ∧ metricsCoverageShown emptyMetricsJson = Json.str "-"
    ∧ metricsRefactorShown emptyMetricsJson = Json.str "-"
    ∧ metricsComboShown emptyMetricsJson = Json.num 0 :=
  ⟨rfl, rfl, rfl, rfl⟩

theorem streamRun_append (parse : String → Option Json) :
    ∀ (l1 l2 : List StreamInput) (s : ESState),
      streamRun parse s (l1 ++ l2)
        = streamRun parse (streamRun parse s l1) l2 := by
  intro l1
  induction l1 with
  | nil => intro l2 s; rfl
  | cons i is ih =>
      intro l2 s
      simp only [List.cons_append, streamRun]
      exact ih l2 (streamStep parse s i)

theorem streamStep_transportError (parse : String → Option Json) (s : ESState) :
    streamStep parse s StreamInput.transportError
      = ESState.mk ESReady.closed s.log := by
  cases s with
  | mk r lg => cases r <;> rfl

theorem streamRun_closed (parse : String → Option Json) :
    ∀ (l : List StreamInput) (lg : List Json),
      streamRun parse (ESState.mk ESReady.closed lg) l
        = ESState.mk ESReady.closed lg := by
  intro l
  induction l with
  | nil => intro lg; rfl
  | cons i is ih =>
      intro lg
      cases i with
      | frame d => simpa [streamRun, streamStep] using ih lg
      | transportError => simpa [streamRun, streamStep] using ih lg

/-- C8: a transport-level error of the run event stream closes it for good:
whatever inputs follow the error, the event log stays what it was before the
error and the stream is closed; the helper has no transition out of the
closed state, so no reconnect ever happens for that run identifier. -/
theorem stream_error_closes_no_reconnect (parse : String → Option Json)
    (s0 : ESState) (pre post : List StreamInput) :
    (streamRun parse s0 (pre ++ StreamInput.transportError :: post)).log
        = (streamRun parse s0 pre).log
    ∧ (streamRun parse s0 (pre ++ StreamInput.transportError :: post)).ready
        = ESReady.closed := by
  have h1 := streamRun_append parse pre (StreamInput.transportError :: post) s0
  have h2 : streamRun parse (streamRun parse s0 pre)
      (StreamInput.transportError :: post)
      = ESState.mk ESReady.closed (streamRun parse s0 pre).log := by
    have h3 : streamRun parse (streamRun parse s0 pre)
        (StreamInput.transportError :: post)
        = streamRun parse (streamStep parse (streamRun parse s0 pre)
            StreamInput.transportError) post := rfl
    rw [h3, streamStep_transportError, streamRun_closed]
  rw [h1, h2]
  exact ⟨rfl, rfl⟩

/-- C9: triggering approve twice for the same actionId on an open channel
transmits two independent, identical approve frames; the transcript grows by
two entries and no deduplication happens. -/
theorem approve_twice_two_frames (sent : List Json) (actionId : String) :
    onApprove (some WSReady.opened) sent actionId
        = Except.ok (sent ++ [approveMsg actionId])
    ∧ onApprove (some WSReady.opened) (sent ++ [approveMsg actionId]) actionId
        = Except.ok (sent ++ [approveMsg actionId, approveMsg actionId])
    ∧ (sent ++ [approveMsg actionId, approveMsg actionId]).length
        = sent.length + 2 := by
  refine ⟨rfl, ?_, by simp⟩
  show Except.ok ((sent ++ [approveMsg actionId]) ++ [approveMsg actionId])
      = Except.ok (sent ++ [approveMsg actionId, approveMsg actionId])
  rw [List.append_assoc]
  rfl

/-- C10: after a successful onStart, the chat log equals exactly the single
assistant greeting, whatever the chat held before and whatever the channel
delivered between its opening and the reset; such in-between messages are
discarded from the log. -/
theorem onstart_resets_chat_to_greeting (chat0 delivered : List Json)
    (sessionId : String) :
    p2OnStartChat chat0 delivered sessionId = [p2Greeting sessionId]
    ∧ ∀ m, m ∈ delivered → m ≠ p2Greeting sessionId →
        m ∉ p2OnStartChat chat0 delivered sessionId := by
  refine ⟨rfl, ?_⟩
  intro m _ hne
  simp only [p2OnStartChat, p2ResetChat, List.mem_singleton]
  exact hne

/-- Concrete instance of C10: a pre-existing chat line and a message
delivered between channel open and the reset both vanish; the log is exactly
the greeting. -/
theorem onstart_resets_chat_to_greeting_witness :
    p2OnStartChat [Json.str "old"] [Json.str "mid"] "s1" = [p2Greeting "s1"]
    ∧ Json.str "mid" ∉ p2OnStartChat [Json.str "old"] [Json.str "mid"] "s1" :=
  ⟨(onstart_resets_chat_to_greeting [Json.str "old"] [Json.str "mid"] "s1").1,
   (onstart_resets_chat_to_greeting [Json.str "old"] [Json.str "mid"] "s1").2
     (Json.str "mid") (by simp) (fun h => Json.noConfusion h)⟩

end AgenticMojo
